import Mathlib

/-!
Shallow embedding of the profinder relationship / messaging state machine.

The embedded code comes from:
- `src/app/messages/[userId]/page.tsx` (MessagesPage): block-status helpers,
  the message snapshot callback, send / edit / delete handlers, unblock.
- the BrowsePage component: `handleAddFriend`, `handleCancelRequest` and the
  status-button rendering.
- the ProfilePage component: `handleAcceptConnection`,
  `handleRejectConnection`, `handleDeleteAccount`.

User documents live in a Firestore collection keyed by uid; the store is
modelled as a partial map from ids to user records.  `updateDoc` on a missing
document fails without writing, so it is modelled as leaving the store
unchanged.  Optional fields that the code defaults with `|| []` or `|| false`
are modelled as total fields holding the defaulted value.
-/

namespace Profinder

/-- A user document, restricted to the relationship fields the handlers read
and write (`connections`, `pendingConnections`, `blockedUsers`). -/
structure UserRec where
  uid : String
  connections : List String
  pendingConnections : List String
  blockedUsers : List String
deriving Repr, DecidableEq

/-- A message document, as mapped out of a snapshot by the MessagesPage
subscription callback (defaults already applied). -/
structure Message where
  mid : String
  senderId : String
  receiverId : String
  text : String
  timestamp : Nat
  seen : Bool
  reactions : List (String × String)
  isDeleted : Bool
  edited : Bool
deriving Repr, DecidableEq

/-- The users collection: a partial map from uid to document. -/
abbrev Store := String → Option UserRec

/-- Point update of the users collection at one key. -/
def setUser (s : Store) (uid : String) (u : Option UserRec) : Store :=
  fun k => if k = uid then u else s k

/-- Firestore `updateDoc` with a field transform: applies `f` when the
document exists; a failed update on a missing document writes nothing. -/
def updateUserDoc (s : Store) (uid : String) (f : UserRec → UserRec) : Store :=
  match s uid with
  | some u => setUser s uid (some (f u))
  | none => s

/-- Firestore `arrayUnion(x)` on an array field: appends `x` unless already
present. -/
def arrayUnion (xs : List String) (x : String) : List String :=
  if x ∈ xs then xs else xs ++ [x]

/-- Firestore `arrayRemove(x)` on an array field: removes every occurrence of
`x`. -/
def arrayRemove (xs : List String) (x : String) : List String :=
  xs.filter (fun y => y ≠ x)

/-- Result of a `getDoc` read: the document (possibly missing), or a thrown
read error. -/
inductive ReadResult where
  | ok (u : Option UserRec)
  | err
deriving Repr, DecidableEq

/-- An error-free read environment over a store. -/
def storeRead (s : Store) : String → ReadResult :=
  fun uid => ReadResult.ok (s uid)

/-- MessagesPage `isUserBlocked(blockerId, blockedId)`: reads the blocker
document; when it exists, tests `blockedUsers.includes(blockedId)`; returns
`false` when the document does not exist, and `false` from the catch branch
when the read errors. -/
def isUserBlocked (read : String → ReadResult) (blockerId blockedId : String) : Bool :=
  match read blockerId with
  | ReadResult.ok (some u) => u.blockedUsers.contains blockedId
  | ReadResult.ok none => false
  | ReadResult.err => false

/-- MessagesPage `checkMutualBlockStatus(user1Id, user2Id)`: the pair
`(user1BlocksUser2, user2BlocksUser1)`. -/
def checkMutualBlockStatus (read : String → ReadResult) (user1Id user2Id : String) :
    Bool × Bool :=
  (isUserBlocked read user1Id user2Id, isUserBlocked read user2Id user1Id)

/-- The per-message seen flip performed by the snapshot batch: flag
`seen := true` when `receiverId == me && !seen`. -/
def flagSeen (meUid : String) (m : Message) : Message :=
  if m.receiverId = meUid ∧ m.seen = false then { m with seen := true } else m

/-- MessagesPage `onSnapshot` callback for the open conversation: re-checks
the mutual block status; when either side blocks the other it presents an
empty list and returns before the seen batch runs; otherwise it presents the
snapshot as delivered and commits a batch flagging every unseen inbound
message as seen.  Returns `(visible list, message store after the batch)`. -/
def processSnapshot (read : String → ReadResult) (meUid otherUid : String)
    (snapshot : List Message) : List Message × List Message :=
  let bs := checkMutualBlockStatus read meUid otherUid
  if bs.1 || bs.2 then ([], snapshot)
  else (snapshot, snapshot.map (flagSeen meUid))

/-- JavaScript `String.prototype.trim`, applied by `handleSendMessage`:
drops leading and trailing whitespace. -/
def trimString (s : String) : String :=
  String.mk (((s.data.dropWhile Char.isWhitespace).reverse.dropWhile
    Char.isWhitespace).reverse)

/-- Outcome of `handleSendMessage`, distinguishing the two block alerts from
the silent empty-input return and a successful write. -/
inductive SendResult where
  | notSent
  | blockedByThem
  | blockedByMe
  | sent (text : String)
deriving Repr, DecidableEq

/-- The message document written by `handleSendMessage` (`id` and `timestamp`
are assigned by the store and passed in here). -/
def mkSentMessage (newId meUid otherUid text : String) (ts : Nat) : Message :=
  { mid := newId, senderId := meUid, receiverId := otherUid, text := text
    timestamp := ts, seen := false, reactions := [], isDeleted := false
    edited := false }

/-- MessagesPage `handleSendMessage`: returns without writing when the input
is empty after trim; otherwise checks the mutual block status and alerts
(without writing) when the selected user blocks me, then when I block the
selected user; otherwise appends a fresh message carrying the trimmed text. -/
def handleSendMessage (read : String → ReadResult) (meUid otherUid : String)
    (newMessage : String) (msgs : List Message) (newId : String) (ts : Nat) :
    SendResult × List Message :=
  if trimString newMessage = "" then (SendResult.notSent, msgs)
  else
    let bs := checkMutualBlockStatus read meUid otherUid
    if bs.2 then (SendResult.blockedByThem, msgs)
    else if bs.1 then (SendResult.blockedByMe, msgs)
    else (SendResult.sent (trimString newMessage),
          msgs ++ [mkSentMessage newId meUid otherUid (trimString newMessage) ts])

/-- Firestore `updateDoc` on one message document of the pair collection. -/
def updateMessageDoc (msgs : List Message) (mid : String) (f : Message → Message) :
    List Message :=
  msgs.map (fun m => if m.mid = mid then f m else m)

/-- MessagesPage `handleDeleteMessage`: sets `isDeleted := true` on the
message document, leaving every other field (the text included) in place. -/
def handleDeleteMessage (msgs : List Message) (mid : String) : List Message :=
  updateMessageDoc msgs mid (fun m => { m with isDeleted := true })

/-- MessagesPage `handleEditMessage`: sets `text := newText` and
`edited := true` on the message document. -/
def handleEditMessage (msgs : List Message) (mid : String) (newText : String) :
    List Message :=
  updateMessageDoc msgs mid (fun m => { m with text := newText, edited := true })

/-- The guard under which the edit and delete affordances render in the
message list: `message.senderId === currentUser.uid && !message.isDeleted`. -/
def messageActionsOffered (m : Message) (meUid : String) : Bool :=
  m.senderId = meUid && !m.isDeleted

/-- An edit attempt through the page: the affordance guard composed with
`handleEditMessage`; `none` when the page offers no edit affordance. -/
def attemptEdit (meUid : String) (m : Message) (newText : String)
    (msgs : List Message) : Option (List Message) :=
  if messageActionsOffered m meUid then some (handleEditMessage msgs m.mid newText)
  else none

/-- A soft-delete attempt through the page: the affordance guard composed
with `handleDeleteMessage`. -/
def attemptSoftDelete (meUid : String) (m : Message) (msgs : List Message) :
    Option (List Message) :=
  if messageActionsOffered m meUid then some (handleDeleteMessage msgs m.mid)
  else none

/-- MessagesPage `handleUnblockUser`: reads the current user document; when
it exists and `blockedUsers.includes(userId)` it writes the filtered list;
otherwise it alerts and leaves the store unchanged. -/
def handleUnblockUser (s : Store) (meUid userId : String) : Store :=
  match s meUid with
  | some u =>
      if userId ∈ u.blockedUsers then
        setUser s meUid
          (some { u with blockedUsers := u.blockedUsers.filter (fun id => id ≠ userId) })
      else s
  | none => s

/-- The messages-area render of MessagesPage, one constructor per branch. -/
inductive MessagesAreaView where
  | blockedNotice (blockedByThem : Bool)
  | loadingView
  | emptyView
  | messageList (msgs : List Message)
deriving Repr, DecidableEq

/-- The messages-area branch order: the blocked notice renders whenever
`isBlocked || isBlockedByThem`, ahead of the loading, empty and message-list
branches; its wording depends on `isBlockedByThem`. -/
def messagesAreaView (isBlocked isBlockedByThem loading : Bool)
    (msgs : List Message) : MessagesAreaView :=
  if isBlocked || isBlockedByThem then MessagesAreaView.blockedNotice isBlockedByThem
  else if loading then MessagesAreaView.loadingView
  else if msgs.length = 0 then MessagesAreaView.emptyView
  else MessagesAreaView.messageList msgs

/-- BrowsePage `handleAddFriend(profileId)`: unconditionally
`arrayUnion(currentUser.uid)` into the profile `pendingConnections`. -/
def handleAddFriend (s : Store) (meUid profileId : String) : Store :=
  updateUserDoc s profileId
    (fun u => { u with pendingConnections := arrayUnion u.pendingConnections meUid })

/-- BrowsePage `handleCancelRequest(profileId)`:
`arrayRemove(currentUser.uid)` from the profile `pendingConnections`. -/
def handleCancelRequest (s : Store) (meUid profileId : String) : Store :=
  updateUserDoc s profileId
    (fun u => { u with pendingConnections := arrayRemove u.pendingConnections meUid })

/-- The three mutually exclusive status renders of a BrowsePage card. -/
inductive StatusButton where
  | connectedView
  | requestSentView
  | connectButton
deriving Repr, DecidableEq

/-- BrowsePage status-button resolution for a card: tests only the viewed
profile record — `profile.connections.includes(me)` first, then
`profile.pendingConnections.includes(me)`, else the Connect button (which
fires `handleAddFriend`). -/
def statusButton (profile : UserRec) (meUid : String) : StatusButton :=
  if profile.connections.contains meUid then StatusButton.connectedView
  else if profile.pendingConnections.contains meUid then StatusButton.requestSentView
  else StatusButton.connectButton

/-- ProfilePage `handleAcceptConnection(connectionId)`: two sequential
updates — on the current user document `arrayUnion` the sender into
`connections` and `arrayRemove` it from `pendingConnections`, then the
mirror update on the sender document. -/
def handleAcceptConnection (s : Store) (meUid connectionId : String) : Store :=
  let s1 := updateUserDoc s meUid (fun u =>
    { u with connections := arrayUnion u.connections connectionId
             pendingConnections := arrayRemove u.pendingConnections connectionId })
  updateUserDoc s1 connectionId (fun u =>
    { u with connections := arrayUnion u.connections meUid
             pendingConnections := arrayRemove u.pendingConnections meUid })

/-- ProfilePage `handleRejectConnection(connectionId)`: `arrayRemove` the
sender from the current user `pendingConnections`. -/
def handleRejectConnection (s : Store) (meUid connectionId : String) : Store :=
  updateUserDoc s meUid
    (fun u => { u with pendingConnections := arrayRemove u.pendingConnections connectionId })

/-- ProfilePage `handleDeleteAccount`: `deleteDoc` on the own user document
(then deletes the auth account and navigates away); no other document is
touched. -/
def handleDeleteAccount (s : Store) (meUid : String) : Store :=
  setUser s meUid none

/-- The derived per-pair relationship states of the spec. -/
inductive RelationshipState where
  | Strangers
  | RequestSentByMe
  | RequestSentByThem
  | Connected
  | BlockedByMe
  | BlockedByThem
  | MutuallyBlocked
deriving Repr, DecidableEq

/-- The spec-side resolver, stated with the resolution order of spec section
4.1 (blocked states first, then Connected, then the pending directions, else
Strangers); used to phrase claims about relationship states, to be compared
with what the embedded page code renders. -/
def resolveState (meRec otherRec : UserRec) : RelationshipState :=
  if otherRec.uid ∈ meRec.blockedUsers ∧ meRec.uid ∈ otherRec.blockedUsers then
    RelationshipState.MutuallyBlocked
  else if otherRec.uid ∈ meRec.blockedUsers then RelationshipState.BlockedByMe
  else if meRec.uid ∈ otherRec.blockedUsers then RelationshipState.BlockedByThem
  else if otherRec.uid ∈ meRec.connections then RelationshipState.Connected
  else if meRec.uid ∈ otherRec.pendingConnections then RelationshipState.RequestSentByMe
  else if otherRec.uid ∈ meRec.pendingConnections then RelationshipState.RequestSentByThem
  else RelationshipState.Strangers

/-! Helper lemmas about the store and array primitives. -/

lemma setUser_same (s : Store) (uid : String) (u : Option UserRec) :
    setUser s uid u uid = u := by
  simp [setUser]

lemma setUser_ne (s : Store) (uid k : String) (u : Option UserRec) (h : k ≠ uid) :
    setUser s uid u k = s k := by
  simp [setUser, h]

lemma setUser_setUser (s : Store) (uid : String) (u v : Option UserRec) :
    setUser (setUser s uid u) uid v = setUser s uid v := by
  funext k
  by_cases h : k = uid <;> simp [setUser, h]

lemma mem_arrayUnion_self (xs : List String) (x : String) : x ∈ arrayUnion xs x := by
  by_cases h : x ∈ xs <;> simp [arrayUnion, h]

lemma arrayRemove_not_mem (xs : List String) (x : String) : x ∉ arrayRemove xs x := by
  simp [arrayRemove]

lemma arrayRemove_idem (xs : List String) (x : String) :
    arrayRemove (arrayRemove xs x) x = arrayRemove xs x := by
  simp [arrayRemove, List.filter_filter]

lemma updateUserDoc_idem (s : Store) (uid : String) (f : UserRec → UserRec)
    (hf : ∀ u, f (f u) = f u) :
    updateUserDoc (updateUserDoc s uid f) uid f = updateUserDoc s uid f := by
  unfold updateUserDoc
  cases h : s uid with
  | none => simp [h]
  | some u => simp [h, setUser_same, setUser_setUser, hf u]

/-- C8: CancelRequest, RejectRequest and Unblock are idempotent on the store —
running any of them a second time with the same arguments leaves the stored
state of the first run unchanged, the second run on an already-absent
relation being a no-op. -/
theorem retry_idempotent (s : Store) (meUid otherUid : String) :
    handleCancelRequest (handleCancelRequest s meUid otherUid) meUid otherUid
      = handleCancelRequest s meUid otherUid ∧
    handleRejectConnection (handleRejectConnection s meUid otherUid) meUid otherUid
      = handleRejectConnection s meUid otherUid ∧
    handleUnblockUser (handleUnblockUser s meUid otherUid) meUid otherUid
      = handleUnblockUser s meUid otherUid := by
  refine ⟨?_, ?_, ?_⟩
  · exact updateUserDoc_idem s otherUid _ (fun u => by simp [arrayRemove_idem])
  · exact updateUserDoc_idem s meUid _ (fun u => by simp [arrayRemove_idem])
  · unfold handleUnblockUser
    cases h : s meUid with
    | none => simp [h]
    | some u =>
        by_cases hb : otherUid ∈ u.blockedUsers
        · simp [h, hb, setUser_same]
        · simp [h, hb]

/-- C4: sending a connection request from A to B and then accepting it on
the B side yields a store where each of A and B lists the other in
`connections` and A is no longer in the B `pendingConnections`. -/
theorem request_accept_roundtrip (s : Store) (a b : String) (aRec bRec : UserRec)
    (hab : a ≠ b) (ha : s a = some aRec) (hb : s b = some bRec)
    (hc1 : b ∉ aRec.connections) (hc2 : a ∉ bRec.connections)
    (hp1 : a ∉ bRec.pendingConnections) (hp2 : b ∉ aRec.pendingConnections) :
    ∃ aRec2 bRec2,
      (handleAcceptConnection (handleAddFriend s a b) b a) a = some aRec2 ∧
      (handleAcceptConnection (handleAddFriend s a b) b a) b = some bRec2 ∧
      b ∈ aRec2.connections ∧ a ∈ bRec2.connections ∧
      a ∉ bRec2.pendingConnections := by
  refine ⟨{ aRec with connections := arrayUnion aRec.connections b
                      pendingConnections := arrayRemove aRec.pendingConnections b },
          { bRec with connections := arrayUnion bRec.connections a
                      pendingConnections :=
                        arrayRemove (arrayUnion bRec.pendingConnections a) a },
          ?_, ?_, mem_arrayUnion_self _ _, mem_arrayUnion_self _ _,
          arrayRemove_not_mem _ _⟩
  · simp [handleAddFriend, handleAcceptConnection, updateUserDoc, hb,
      setUser_same, setUser_ne _ _ _ _ hab, ha]
  · simp [handleAddFriend, handleAcceptConnection, updateUserDoc, hb,
      setUser_same, setUser_ne _ _ _ _ hab, ha, setUser_ne _ _ _ _ (Ne.symm hab)]

/-- C1: when either side of the pair blocks the other, the snapshot callback
presents an empty visible message list, whatever the store returned. -/
theorem blocked_pair_messages_empty (s : Store) (meUid otherUid : String)
    (meRec otherRec : UserRec) (snapshot : List Message)
    (hm : s meUid = some meRec) (ho : s otherUid = some otherRec)
    (hblk : otherUid ∈ meRec.blockedUsers ∨ meUid ∈ otherRec.blockedUsers) :
    (processSnapshot (storeRead s) meUid otherUid snapshot).1 = [] := by
  unfold processSnapshot checkMutualBlockStatus isUserBlocked storeRead
  rcases hblk with h | h <;> simp [hm, ho, h]

/-- Fixture for the C1 witness: A blocks B; one message from B to A sits in
the store. -/
def w1Store : Store :=
  fun k => if k = "A" then some ⟨"A", [], [], ["B"]⟩
           else if k = "B" then some ⟨"B", [], [], []⟩ else none

/-- Fixture message used by several witnesses. -/
def w1Msg : Message :=
  ⟨"m1", "B", "A", "hello", 1, false, [], false, false⟩

theorem blocked_pair_messages_empty_witness :
    (processSnapshot (storeRead w1Store) "A" "B" [w1Msg]).1 = [] :=
  blocked_pair_messages_empty w1Store "A" "B" ⟨"A", [], [], ["B"]⟩
    ⟨"B", [], [], []⟩ [w1Msg] rfl rfl (Or.inl (by decide))

/-- C2: `handleSendMessage` writes nothing when the input trims to empty;
when the selected user blocks me it alerts blocked-by-them without a write;
when I block the selected user it alerts blocked-by-me without a write;
otherwise it appends one message carrying the trimmed text. -/
theorem send_message_gating (read : String → ReadResult) (meUid otherUid : String)
    (txt : String) (msgs : List Message) (newId : String) (ts : Nat) :
    (trimString txt = "" →
      handleSendMessage read meUid otherUid txt msgs newId ts
        = (SendResult.notSent, msgs)) ∧
    (trimString txt ≠ "" → isUserBlocked read otherUid meUid = true →
      handleSendMessage read meUid otherUid txt msgs newId ts
        = (SendResult.blockedByThem, msgs)) ∧
    (trimString txt ≠ "" → isUserBlocked read otherUid meUid = false →
      isUserBlocked read meUid otherUid = true →
      handleSendMessage read meUid otherUid txt msgs newId ts
        = (SendResult.blockedByMe, msgs)) ∧
    (trimString txt ≠ "" → isUserBlocked read otherUid meUid = false →
      isUserBlocked read meUid otherUid = false →
      handleSendMessage read meUid otherUid txt msgs newId ts
        = (SendResult.sent (trimString txt),
           msgs ++ [mkSentMessage newId meUid otherUid (trimString txt) ts])) := by
  refine ⟨?_, ?_, ?_, ?_⟩
  · intro h1
    simp [handleSendMessage, checkMutualBlockStatus, h1]
  · intro h1 h2
    simp [handleSendMessage, checkMutualBlockStatus, h1, h2]
  · intro h1 h2 h3
    simp [handleSendMessage, checkMutualBlockStatus, h1, h2, h3]
  · intro h1 h2 h3
    simp [handleSendMessage, checkMutualBlockStatus, h1, h2, h3]

/-- Read fixture for the C2 witness: no document blocks anybody. -/
def w2ReadClear : String → ReadResult :=
  fun _ => ReadResult.ok none

/-- Read fixture for the C2 witness: B blocks A. -/
def w2ReadThem : String → ReadResult :=
  fun k => if k = "B" then ReadResult.ok (some ⟨"B", [], [], ["A"]⟩)
           else ReadResult.ok none

/-- Read fixture for the C2 witness: A blocks B. -/
def w2ReadMe : String → ReadResult :=
  fun k => if k = "A" then ReadResult.ok (some ⟨"A", [], [], ["B"]⟩)
           else ReadResult.ok none

theorem send_message_gating_witness :
    handleSendMessage w2ReadClear "A" "B" "   " [] "m2" 5
      = (SendResult.notSent, []) ∧
    handleSendMessage w2ReadThem "A" "B" " hi " [] "m2" 5
      = (SendResult.blockedByThem, []) ∧
    handleSendMessage w2ReadMe "A" "B" " hi " [] "m2" 5
      = (SendResult.blockedByMe, []) ∧
    handleSendMessage w2ReadClear "A" "B" " hi " [] "m2" 5
      = (SendResult.sent "hi", [mkSentMessage "m2" "A" "B" "hi" 5]) :=
  ⟨(send_message_gating w2ReadClear "A" "B" "   " [] "m2" 5).1 (by decide),
   (send_message_gating w2ReadThem "A" "B" " hi " [] "m2" 5).2.1
     (by decide) (by decide),
   (send_message_gating w2ReadMe "A" "B" " hi " [] "m2" 5).2.2.1
     (by decide) (by decide) (by decide),
   by
     have h := (send_message_gating w2ReadClear "A" "B" " hi " [] "m2" 5).2.2.2
       (by decide) (by decide) (by decide)
     rw [h]; decide⟩

/-- C3: when the current user blocks the selected user (and is not blocked
back), the spec-order resolver answers BlockedByMe — even with a pending
request from the selected user sitting in `pendingConnections` — and the
messages area renders the blocked notice ahead of every other branch. -/
theorem blocking_precedence (s : Store) (meUid otherUid : String)
    (meRec otherRec : UserRec) (loading : Bool) (msgs : List Message)
    (hm : s meUid = some meRec) (ho : s otherUid = some otherRec)
    (hid1 : meRec.uid = meUid) (hid2 : otherRec.uid = otherUid)
    (hpend : otherUid ∈ meRec.pendingConnections)
    (hblk : otherUid ∈ meRec.blockedUsers)
    (hnb : meUid ∉ otherRec.blockedUsers) :
    resolveState meRec otherRec = RelationshipState.BlockedByMe ∧
    (checkMutualBlockStatus (storeRead s) meUid otherUid).1 = true ∧
    messagesAreaView (checkMutualBlockStatus (storeRead s) meUid otherUid).1
      (checkMutualBlockStatus (storeRead s) meUid otherUid).2 loading msgs
      = MessagesAreaView.blockedNotice
          (checkMutualBlockStatus (storeRead s) meUid otherUid).2 := by
  have hb1 : (checkMutualBlockStatus (storeRead s) meUid otherUid).1 = true := by
    simp [checkMutualBlockStatus, isUserBlocked, storeRead, hm, hblk]
  refine ⟨?_, hb1, ?_⟩
  · simp [resolveState, hid1, hid2, hblk, hnb]
  · simp [messagesAreaView, hb1]

/-- Fixture for the C3 witness: A blocks B while B has a pending request to
A on record. -/
def w3Store : Store :=
  fun k => if k = "A" then some ⟨"A", [], ["B"], ["B"]⟩
           else if k = "B" then some ⟨"B", [], [], []⟩ else none

theorem blocking_precedence_witness :
    resolveState ⟨"A", [], ["B"], ["B"]⟩ ⟨"B", [], [], []⟩
      = RelationshipState.BlockedByMe ∧
    (checkMutualBlockStatus (storeRead w3Store) "A" "B").1 = true ∧
    messagesAreaView (checkMutualBlockStatus (storeRead w3Store) "A" "B").1
      (checkMutualBlockStatus (storeRead w3Store) "A" "B").2 false []
      = MessagesAreaView.blockedNotice
          (checkMutualBlockStatus (storeRead w3Store) "A" "B").2 :=
  blocking_precedence w3Store "A" "B" ⟨"A", [], ["B"], ["B"]⟩ ⟨"B", [], [], []⟩
    false [] rfl rfl rfl rfl (by decide) (by decide) (by decide)

/-- Fixture for the C4 witness: two unrelated users A and B. -/
def rtStore : Store :=
  fun k => if k = "A" then some ⟨"A", [], [], []⟩
           else if k = "B" then some ⟨"B", [], [], []⟩ else none

theorem request_accept_roundtrip_witness :
    ∃ aRec2 bRec2,
      (handleAcceptConnection (handleAddFriend rtStore "A" "B") "B" "A") "A"
        = some aRec2 ∧
      (handleAcceptConnection (handleAddFriend rtStore "A" "B") "B" "A") "B"
        = some bRec2 ∧
      "B" ∈ aRec2.connections ∧ "A" ∈ bRec2.connections ∧
      "A" ∉ bRec2.pendingConnections :=
  request_accept_roundtrip rtStore "A" "B" ⟨"A", [], [], []⟩ ⟨"B", [], [], []⟩
    (by decide) rfl rfl (by decide) (by decide) (by decide) (by decide)

/-- Fixtures for C5: B has a pending request to A on record
(RequestSentByThem for A toward B); the B record holds no relation to A. -/
def cv5A : UserRec := ⟨"A", [], ["B"], []⟩

/-- The B record of the C5 fixture. -/
def cv5B : UserRec := ⟨"B", [], [], []⟩

/-- The C5 fixture store. -/
def cv5Store : Store :=
  fun k => if k = "A" then some cv5A else if k = "B" then some cv5B else none

/-- C5 counterexample: in state RequestSentByThem — not Strangers — the
BrowsePage still renders the Connect button for A on the B card, and
`handleAddFriend` still performs the write; no precondition message exists. -/
theorem send_request_outside_strangers :
    resolveState cv5A cv5B = RelationshipState.RequestSentByThem ∧
    statusButton cv5B "A" = StatusButton.connectButton ∧
    (handleAddFriend cv5Store "A" "B") "B" = some ⟨"B", [], ["A"], []⟩ := by
  decide

/-- C5 (amended): the Connect affordance is resolved from the viewed profile
record alone — rendered exactly when the profile lists me in neither
`connections` nor `pendingConnections`, whatever my own record or the block
lists say — and the performed action writes exactly `arrayUnion(me)` into
the profile `pendingConnections`; invalid-state attempts are prevented by
hiding the affordance, not surfaced as a message. -/
theorem send_request_affordance (profile : UserRec) (meUid : String) (s : Store)
    (hp : s profile.uid = some profile) :
    (statusButton profile meUid = StatusButton.connectButton ↔
      meUid ∉ profile.connections ∧ meUid ∉ profile.pendingConnections) ∧
    handleAddFriend s meUid profile.uid
      = setUser s profile.uid
          (some { profile with
                    pendingConnections := arrayUnion profile.pendingConnections meUid }) := by
  constructor
  · by_cases h1 : meUid ∈ profile.connections <;>
      by_cases h2 : meUid ∈ profile.pendingConnections <;>
        simp [statusButton, h1, h2]
  · simp [handleAddFriend, updateUserDoc, hp]

theorem send_request_affordance_witness :
    (statusButton cv5B "A" = StatusButton.connectButton ↔
      "A" ∉ cv5B.connections ∧ "A" ∉ cv5B.pendingConnections) ∧
    handleAddFriend cv5Store "A" cv5B.uid
      = setUser cv5Store cv5B.uid
          (some { cv5B with
                    pendingConnections := arrayUnion cv5B.pendingConnections "A" }) :=
  send_request_affordance cv5B "A" cv5Store rfl

lemma softDelete_text_preserved (msgs : List Message) (mid : String) :
    (handleDeleteMessage msgs mid).map (fun x => x.text)
      = msgs.map (fun x => x.text) := by
  induction msgs with
  | nil => rfl
  | cons x xs ih =>
      by_cases h : x.mid = mid <;>
        simp only [handleDeleteMessage, updateMessageDoc, List.map_cons] at * <;>
        simp [h, ih]

/-- C6: edit and soft-delete attempts through the page are author-gated —
any non-author attempt yields nothing, an edit of a deleted message yields
nothing, and when permitted the edit sets `text` to the new value with
`edited := true` while the soft delete sets `isDeleted := true`; the soft
delete retains every message text. -/
theorem edit_delete_author_only (u : String) (m : Message) (newText : String)
    (msgs : List Message) :
    (u ≠ m.senderId →
      attemptEdit u m newText msgs = none ∧ attemptSoftDelete u m msgs = none) ∧
    (m.isDeleted = true →
      attemptEdit u m newText msgs = none ∧ attemptSoftDelete u m msgs = none) ∧
    (u = m.senderId → m.isDeleted = false →
      attemptEdit u m newText msgs
        = some (msgs.map (fun x =>
            if x.mid = m.mid then { x with text := newText, edited := true } else x)) ∧
      attemptSoftDelete u m msgs
        = some (msgs.map (fun x =>
            if x.mid = m.mid then { x with isDeleted := true } else x))) ∧
    (handleDeleteMessage msgs m.mid).map (fun x => x.text)
      = msgs.map (fun x => x.text) := by
  refine ⟨?_, ?_, ?_, softDelete_text_preserved msgs m.mid⟩
  · intro h
    constructor <;>
      simp [attemptEdit, attemptSoftDelete, messageActionsOffered, Ne.symm h]
  · intro h
    constructor <;>
      simp [attemptEdit, attemptSoftDelete, messageActionsOffered, h]
  · intro h1 h2
    constructor <;>
      simp [attemptEdit, attemptSoftDelete, messageActionsOffered, h1, h2,
        handleEditMessage, handleDeleteMessage, updateMessageDoc]

/-- Fixture message for the C6 witness, authored by A. -/
def w6Msg : Message := ⟨"m6", "A", "B", "hey", 2, false, [], false, false⟩

theorem edit_delete_author_only_witness :
    attemptEdit "B" w6Msg "x" [w6Msg] = none ∧
    attemptSoftDelete "B" w6Msg [w6Msg] = none ∧
    attemptSoftDelete "A" w6Msg [w6Msg]
      = some [{ w6Msg with isDeleted := true }] := by
  have hB := edit_delete_author_only "B" w6Msg "x" [w6Msg]
  have hA := edit_delete_author_only "A" w6Msg "x" [w6Msg]
  refine ⟨(hB.1 (by decide)).1, (hB.1 (by decide)).2, ?_⟩
  have h3 := (hA.2.2.1 rfl rfl).2
  rw [h3]
  decide

/-- Fixture for C7: B lists A as a connection. -/
def d7Store : Store :=
  fun k => if k = "A" then some ⟨"A", [], [], []⟩
           else if k = "B" then some ⟨"B", ["A"], [], []⟩ else none

/-- C7 counterexample: deleting the A account leaves the B record still
listing A in `connections` — the cascade the claim requires never runs. -/
theorem delete_account_dangling_reference :
    (handleDeleteAccount d7Store "A") "A" = none ∧
    (handleDeleteAccount d7Store "A") "B" = some ⟨"B", ["A"], [], []⟩ ∧
    "A" ∈ (UserRec.mk "B" ["A"] [] []).connections := by
  decide

/-- C7 (amended): account deletion removes exactly the own user document and
leaves every other user document untouched, so references to the deleted id
remain in other records. -/
theorem delete_account_no_cascade (s : Store) (meUid k : String) :
    (handleDeleteAccount s meUid) meUid = none ∧
    (k ≠ meUid → (handleDeleteAccount s meUid) k = s k) :=
  ⟨setUser_same s meUid none, fun h => setUser_ne s meUid k none h⟩

theorem delete_account_no_cascade_witness :
    (handleDeleteAccount d7Store "A") "A" = none ∧
    (handleDeleteAccount d7Store "A") "B" = d7Store "B" :=
  ⟨(delete_account_no_cascade d7Store "A" "B").1,
   (delete_account_no_cascade d7Store "A" "B").2 (by decide)⟩

/-- Read fixture for the C9 counterexample: A blocks B. -/
def b9Read : String → ReadResult :=
  fun k => if k = "A" then ReadResult.ok (some ⟨"A", [], [], ["B"]⟩)
           else ReadResult.ok none

/-- Unseen message addressed to A, used by C9. -/
def m9 : Message := ⟨"m9", "B", "A", "hello", 3, false, [], false, false⟩

/-- C9 counterexample: with A blocking B, a delivered snapshot holding an
unseen message addressed to A returns early, so the seen batch never runs
and the message keeps `seen = false` in the store. -/
theorem snapshot_blocked_skips_seen_flag :
    m9.receiverId = "A" ∧ m9.seen = false ∧
    processSnapshot b9Read "A" "B" [m9] = ([], [m9]) ∧
    ({ m9 with seen := true }) ∉ (processSnapshot b9Read "A" "B" [m9]).2 := by
  decide

/-- C9 (amended): on a snapshot for a pair where neither side blocks the
other, the batch flags exactly the unseen messages addressed to the current
user: each such message reappears with `seen := true`, every other message
reappears unchanged, and nothing else enters the store. -/
theorem markseen_flags_unseen (read : String → ReadResult) (meUid otherUid : String)
    (snap : List Message)
    (h1 : isUserBlocked read meUid otherUid = false)
    (h2 : isUserBlocked read otherUid meUid = false) :
    (processSnapshot read meUid otherUid snap).2 = snap.map (flagSeen meUid) ∧
    (∀ m ∈ snap, m.receiverId = meUid → m.seen = false →
      { m with seen := true } ∈ (processSnapshot read meUid otherUid snap).2) ∧
    (∀ m ∈ snap, ¬(m.receiverId = meUid ∧ m.seen = false) →
      m ∈ (processSnapshot read meUid otherUid snap).2) ∧
    (∀ m2 ∈ (processSnapshot read meUid otherUid snap).2,
      m2 ∈ snap ∨ ∃ m ∈ snap, m.receiverId = meUid ∧ m.seen = false ∧
        m2 = { m with seen := true }) := by
  have hps : (processSnapshot read meUid otherUid snap).2
      = snap.map (flagSeen meUid) := by
    simp [processSnapshot, checkMutualBlockStatus, h1, h2]
  refine ⟨hps, ?_, ?_, ?_⟩
  · intro m hm hr hs
    rw [hps]
    have he : flagSeen meUid m = { m with seen := true } := by
      simp [flagSeen, hr, hs]
    rw [← he]
    exact List.mem_map_of_mem _ hm
  · intro m hm hcond
    rw [hps]
    have he : flagSeen meUid m = m := by
      simp only [flagSeen, if_neg hcond]
    rw [← he]
    exact List.mem_map_of_mem _ hm
  · intro m2 hm2
    rw [hps] at hm2
    obtain ⟨m, hm, hflag⟩ := List.mem_map.mp hm2
    by_cases hc : m.receiverId = meUid ∧ m.seen = false
    · right
      refine ⟨m, hm, hc.1, hc.2, ?_⟩
      rw [← hflag]
      simp [flagSeen, hc.1, hc.2]
    · left
      have he : flagSeen meUid m = m := by
        simp only [flagSeen, if_neg hc]
      rw [he] at hflag
      exact hflag ▸ hm

/-- Read fixture for the C9 witness: nobody blocks anybody. -/
def w9Read : String → ReadResult := fun _ => ReadResult.ok none

theorem markseen_flags_unseen_witness :
    isUserBlocked w9Read "A" "B" = false ∧
    isUserBlocked w9Read "B" "A" = false ∧
    (processSnapshot w9Read "A" "B" [m9]).2 = [{ m9 with seen := true }] := by
  have h := (markseen_flags_unseen w9Read "A" "B" [m9] rfl rfl).1
  refine ⟨rfl, rfl, ?_⟩
  rw [h]
  decide

/-- C10: the block check fails open — an errored or missing blocker read
makes `isUserBlocked` answer false, so the mutual-block status derived from
it reports that direction as not blocked. -/
theorem block_check_fails_open (read : String → ReadResult)
    (blockerId blockedId : String)
    (h : read blockerId = ReadResult.err ∨ read blockerId = ReadResult.ok none) :
    isUserBlocked read blockerId blockedId = false ∧
    (checkMutualBlockStatus read blockerId blockedId).1 = false ∧
    (checkMutualBlockStatus read blockedId blockerId).2 = false := by
  rcases h with h | h <;> simp [isUserBlocked, checkMutualBlockStatus, h]

/-- Read fixture for the C10 witness: every read errors. -/
def w10Read : String → ReadResult := fun _ => ReadResult.err

theorem block_check_fails_open_witness :
    isUserBlocked w10Read "A" "B" = false ∧
    (checkMutualBlockStatus w10Read "A" "B").1 = false ∧
    (checkMutualBlockStatus w10Read "B" "A").2 = false :=
  block_check_fails_open w10Read "A" "B" (Or.inl rfl)

end Profinder
